import Mathlib

/-!
Verification development for the Letterboxio addon.

The JavaScript source (letterboxd.js and the server module) is shallowly
embedded below.  JavaScript `Map` objects become extensional functions
`String → Option β`; `Date.now()` becomes an explicit `now : ℕ` argument;
network and browser effects become explicit event traces; code that can
throw returns `Except`; the process-wide mutable session globals
(`browser`, `browserLoggedIn`, `sessionCsrf`) become an explicit
`SessionState` record threaded through the functions.
-/

/-- A JavaScript value as stored in the in-memory caches: `null`, a number,
or a string.  `JsVal.null` plays the role of the JS `null` literal, which
`getCache` also returns for an absent or expired key. -/
inductive JsVal where
  | null : JsVal
  | num : ℚ → JsVal
  | str : String → JsVal
deriving DecidableEq

/-- JavaScript truthiness for the values above (`null`, `0` and `""` are
falsy). -/
def jsTruthy : JsVal → Bool
  | JsVal.null => false
  | JsVal.num q => q ≠ 0
  | JsVal.str s => s ≠ ""

/-- A JS `Map` with string keys, modelled extensionally. -/
def JMap (β : Type) : Type := String → Option β

/-- `m.get(k)`. -/
def mget {β : Type} (m : JMap β) (k : String) : Option β := m k

/-- `m.set(k, v)`. -/
def mset {β : Type} (m : JMap β) (k : String) (v : β) : JMap β :=
  fun k' => if k' = k then some v else m k'

/-- `m.delete(k)`. -/
def mdel {β : Type} (m : JMap β) (k : String) : JMap β :=
  fun k' => if k' = k then none else m k'

/-- `new Map()`. -/
def memp {β : Type} : JMap β := fun _ => none

theorem mget_mset_self {β : Type} (m : JMap β) (k : String) (v : β) :
    mget (mset m k v) k = some v := by
  simp [mget, mset]

theorem mget_mset_ne {β : Type} (m : JMap β) (k k' : String) (v : β) (h : k' ≠ k) :
    mget (mset m k v) k' = mget m k' := by
  simp [mget, mset, h]

theorem mget_mdel_self {β : Type} (m : JMap β) (k : String) :
    mget (mdel m k) k = none := by
  simp [mget, mdel]

/-! ## The TTL cache (letterboxd.js lines 19-30) -/

/-- One cache entry: `{ value, expiresAt: Date.now() + ttlMs }`. -/
structure CacheEntry where
  value : JsVal
  expiresAt : ℕ
deriving DecidableEq

/-- The module-level `cache` map. -/
def CacheMap : Type := JMap CacheEntry

/-- `setCache(key, value, ttlMs)`: stores the value with absolute expiry
`Date.now() + ttlMs`. -/
def setCache (c : CacheMap) (key : String) (value : JsVal) (ttlMs now : ℕ) : CacheMap :=
  mset c key ⟨value, now + ttlMs⟩

/-- `getCache(key)`: returns `null` when the key is absent; evicts and
returns `null` when `Date.now() > entry.expiresAt`; otherwise returns the
stored value.  The result is the returned JS value together with the cache
after the lazy eviction. -/
def getCache (c : CacheMap) (key : String) (now : ℕ) : JsVal × CacheMap :=
  match mget c key with
  | none => (JsVal.null, c)
  | some e => if now > e.expiresAt then (JsVal.null, mdel c key) else (e.value, c)

/-! ## Request deduplication (server, part_001 lines 258-271) -/

/-- `deduplicateRating(imdbId, action)` over the `recentRatings` map.  The
key is the concatenation `imdbId + ":" + action`.  The JS guard is
`if (last && Date.now() - last < 5000)`: `last` is falsy when the key is
absent or the stored timestamp is the number `0`.  Natural subtraction
agrees with the JS comparison here: when `now < last` both reject. -/
def deduplicateRating (m : JMap ℕ) (imdbId action : String) (now : ℕ) :
    Bool × JMap ℕ :=
  let key := imdbId ++ ":" ++ action
  match mget m key with
  | some last =>
      if last ≠ 0 ∧ now - last < 5000 then (false, m)
      else (true, mset m key now)
  | none => (true, mset m key now)

/-! ## The star-rating table (letterboxd.js lines 211-214) -/

/-- `RATING_MAP`: the literal object keyed by the decimal rendering of the
star value, giving the site's internal 1-10 value. -/
def RATING_MAP (s : String) : Option ℕ :=
  if s = "0.5" then some 1
  else if s = "1" then some 2
  else if s = "1.5" then some 3
  else if s = "2" then some 4
  else if s = "2.5" then some 5
  else if s = "3" then some 6
  else if s = "3.5" then some 7
  else if s = "4" then some 8
  else if s = "4.5" then some 9
  else if s = "5" then some 10
  else none

/-- The decimal rendering JavaScript produces (via `String(starRating)`)
for the half-integer star value `k / 2`, for `k = 1, ..., 10`. -/
def starStr (k : ℕ) : String :=
  match k with
  | 1 => "0.5"
  | 2 => "1"
  | 3 => "1.5"
  | 4 => "2"
  | 5 => "2.5"
  | 6 => "3"
  | 7 => "3.5"
  | 8 => "4"
  | 9 => "4.5"
  | 10 => "5"
  | _ => ""

/-- The star value, as a rational, named by `starStr k`. -/
def starOfNat (k : ℕ) : ℚ := (k : ℚ) / 2

/-! ## Session state and the browser lifecycle (letterboxd.js lines 216-300) -/

/-- The module-level mutable session globals of letterboxd.js:
`browser` (absent, or present with its `connected` flag),
`browserLoggedIn`, and `sessionCsrf`. -/
structure SessionState where
  browser : Option Bool
  browserLoggedIn : Bool
  sessionCsrf : Option String
deriving DecidableEq

/-- Observable network/browser effects, recorded as a trace. -/
inductive NetEvent where
  | launch : NetEvent
  | login : NetEvent
  | metaFetch : String → NetEvent
  | filmIdFetch : String → NetEvent
  | post : String → Option ℕ → NetEvent
  | ratingFetch : String → NetEvent
deriving DecidableEq

/-- Outcome of the login transcript inside `ensureBrowserLoggedIn`: either
it succeeds and captures the page's anti-forgery token (which the page may
fail to expose, giving `none`), or it throws (credential rejection,
timeout, still on the sign-in page). -/
inductive LoginOutcome where
  | ok : Option String → LoginOutcome
  | throws : LoginOutcome
deriving DecidableEq

/-- Environment for `ensureBrowserLoggedIn`: whether the credential
environment variables are set, and how the login transcript plays out. -/
structure SessEnv where
  hasCredentials : Bool
  login : LoginOutcome
deriving DecidableEq

/-- `getBrowser()`: reuse the browser when `browser && browser.connected`;
otherwise launch a fresh instance and reset `browserLoggedIn`. -/
def getBrowser (s : SessionState) : SessionState × List NetEvent :=
  match s.browser with
  | some true => (s, [])
  | _ => ({ s with browser := some true, browserLoggedIn := false }, [NetEvent.launch])

/-- `ensureBrowserLoggedIn()`: get the browser, return at once when already
logged in; throw when credentials are missing; otherwise run the login
transcript.  On success the captured anti-forgery token is stored and
`browserLoggedIn` is set; on a thrown login the state keeps whatever
`getBrowser` left.  The `Except` value is the thrown error, the state and
trace are those at the moment of return or throw. -/
def ensureBrowserLoggedIn (env : SessEnv) (s : SessionState) :
    Except String Unit × SessionState × List NetEvent :=
  let (s1, tr) := getBrowser s
  if s1.browserLoggedIn then (Except.ok (), s1, tr)
  else if env.hasCredentials = false then
    (Except.error "LETTERBOXD_USERNAME and LETTERBOXD_PASSWORD required in .env for rating", s1, tr)
  else
    match env.login with
    | LoginOutcome.ok csrf =>
        (Except.ok (), { s1 with browserLoggedIn := true, sessionCsrf := csrf },
         tr ++ [NetEvent.login])
    | LoginOutcome.throws =>
        (Except.error "Login failed", s1, tr ++ [NetEvent.login])

/-- Outcome of the in-page `fetch` POST: a reply with an HTTP status and
whether the JSON body parsed with `result === true` (for the watchlist
endpoint, `result === true || watchlisted === true`), or a thrown
navigation/network error before the call completed. -/
inductive PostOutcome where
  | reply : ℕ → Bool → PostOutcome
  | throws : PostOutcome
deriving DecidableEq

/-- `puppeteerPost(url, body)`: ensure the session is logged in, throw when
no anti-forgery token is stored, then issue the in-page POST.  Returns the
`{status, parsedOk}` reply or the thrown error, with the session state and
the accumulated trace. -/
def puppeteerPost (sessEnv : SessEnv) (postEnv : PostOutcome) (s : SessionState)
    (url : String) (body : Option ℕ) :
    Except String (ℕ × Bool) × SessionState × List NetEvent :=
  match ensureBrowserLoggedIn sessEnv s with
  | (Except.error e, s1, tr) => (Except.error e, s1, tr)
  | (Except.ok _, s1, tr) =>
    match s1.sessionCsrf with
    | none => (Except.error "No CSRF token", s1, tr)
    | some _ =>
      match postEnv with
      | PostOutcome.throws => (Except.error "page navigation failed", s1, tr)
      | PostOutcome.reply status parsedOk =>
          (Except.ok (status, parsedOk), s1, tr ++ [NetEvent.post url body])

/-! ## rateFilm and addToWatchlist (letterboxd.js lines 347-446) -/

/-- The `{success, error?}` result of a mutating action. -/
inductive ActionResult where
  | success : ActionResult
  | failure : String → ActionResult
deriving DecidableEq

/-- Environment for one mutating action: the session environment, the value
`getFilmMeta` would cache and whether its fetch throws, the film id the
lightweight page fetch yields (`none` also covers a swallowed throw), the
POST outcome, and the configured account username. -/
structure ActionEnv where
  sess : SessEnv
  metaValue : JsVal
  metaThrows : Bool
  filmId : Option String
  post : PostOutcome
  username : String

/-- The effect of `getFilmMeta(slug)` as seen by `rateFilm`: on a fresh
(truthy) cache entry nothing happens; otherwise the page is fetched and, on
success, the metadata is cached for six hours.  A thrown fetch returns the
all-null record without caching.  `getFilmMeta` itself never throws. -/
def getFilmMetaEff (metaValue : JsVal) (metaThrows : Bool) (c : CacheMap)
    (slug : String) (now : ℕ) : CacheMap × List NetEvent :=
  let key := "meta:" ++ slug
  let (cached, c1) := getCache c key now
  if jsTruthy cached then (c1, [])
  else if metaThrows then (c1, [NetEvent.metaFetch slug])
  else (setCache c1 key metaValue (6 * 60 * 60 * 1000) now, [NetEvent.metaFetch slug])

/-- The session state after the `catch` block of `rateFilm`: the whole
browser instance is discarded and the login state cleared. -/
def discardedSession : SessionState :=
  { browser := none, browserLoggedIn := false, sessionCsrf := none }

/-- `rateFilm(slug, starRating)`.  Checks `RATING_MAP` before anything
else; then, inside the `try`, ensures the logged-in browser, calls
`getFilmMeta`, fetches the film id (its own throw swallowed into `none`),
and issues the rating POST via `puppeteerPost`.  A 200 reply whose body
parsed true deletes the two rating cache keys and succeeds; a 403 clears
`browserLoggedIn` and `sessionCsrf`; any throw reaches the `catch`, which
discards the browser, the login flag and the token.  Returns
`(result, session, cache, trace)`. -/
def rateFilm (env : ActionEnv) (s : SessionState) (c : CacheMap)
    (slug star : String) (now : ℕ) :
    ActionResult × SessionState × CacheMap × List NetEvent :=
  match RATING_MAP star with
  | none => (ActionResult.failure ("Invalid rating value: " ++ star), s, c, [])
  | some ratingValue =>
    match ensureBrowserLoggedIn env.sess s with
    | (Except.error e, _, tr1) => (ActionResult.failure e, discardedSession, c, tr1)
    | (Except.ok _, s1, tr1) =>
      let (c2, tr2) := getFilmMetaEff env.metaValue env.metaThrows c slug now
      let tr3 := tr1 ++ tr2 ++ [NetEvent.filmIdFetch slug]
      match env.filmId with
      | none => (ActionResult.failure ("Could not find film ID for " ++ slug), s1, c2, tr3)
      | some filmId =>
        match puppeteerPost env.sess env.post s1
            ("/s/film:" ++ filmId ++ "/rate/") (some ratingValue) with
        | (Except.error e, _, tr4) =>
            (ActionResult.failure e, discardedSession, c2, tr3 ++ tr4)
        | (Except.ok (status, parsedOk), s2, tr4) =>
          if status = 200 then
            if parsedOk then
              (ActionResult.success, s2,
               mdel (mdel c2 ("rating:" ++ slug))
                 ("userrating:" ++ env.username ++ ":" ++ slug),
               tr3 ++ tr4)
            else (ActionResult.failure "Unexpected response", s2, c2, tr3 ++ tr4)
          else if status = 403 then
            (ActionResult.failure ("HTTP " ++ toString status),
             { s2 with browserLoggedIn := false, sessionCsrf := none }, c2, tr3 ++ tr4)
          else
            (ActionResult.failure ("HTTP " ++ toString status), s2, c2, tr3 ++ tr4)

/-- `addToWatchlist(slug)`.  Same shape as `rateFilm` but with no rating
check and no `getFilmMeta` call; a 200 reply whose body parsed true deletes
the watchlist cache key.  Its `catch` block only returns the failure: it
does not touch `browser`, `browserLoggedIn` or `sessionCsrf`. -/
def addToWatchlist (env : ActionEnv) (s : SessionState) (c : CacheMap)
    (slug : String) : ActionResult × SessionState × CacheMap × List NetEvent :=
  match ensureBrowserLoggedIn env.sess s with
  | (Except.error e, s1, tr1) => (ActionResult.failure e, s1, c, tr1)
  | (Except.ok _, s1, tr1) =>
    let tr2 := tr1 ++ [NetEvent.filmIdFetch slug]
    match env.filmId with
    | none => (ActionResult.failure ("Could not find film ID for " ++ slug), s1, c, tr2)
    | some filmId =>
      match puppeteerPost env.sess env.post s1
          ("/s/film:" ++ filmId ++ "/watchlist/") none with
      | (Except.error e, s2, tr3) => (ActionResult.failure e, s2, c, tr2 ++ tr3)
      | (Except.ok (status, parsedOk), s2, tr3) =>
        if status = 200 then
          if parsedOk then
            (ActionResult.success, s2, mdel c ("watchlist:" ++ env.username), tr2 ++ tr3)
          else (ActionResult.failure "Unexpected response", s2, c, tr2 ++ tr3)
        else if status = 403 then
          (ActionResult.failure ("HTTP " ++ toString status),
           { s2 with browserLoggedIn := false, sessionCsrf := none }, c, tr2 ++ tr3)
        else (ActionResult.failure ("HTTP " ++ toString status), s2, c, tr2 ++ tr3)

/-! ## Identifier resolution (letterboxd.js lines 452-498, server lines 292-314) -/

/-- Environment for `resolveSlugFromImdbViaPuppeteer`: for each of its two
attempts, the slug extracted by the regular expression from the final URL
(first attempt) or from the `og:url` metadata (second attempt), where
`none` means the pattern did not match and `Except.error` means the fetch
threw. -/
structure FallbackEnv where
  redirectMatch : Except Unit (Option String)
  ogMatch : Except Unit (Option String)

/-- Trace events of one `resolveSlugFromImdb` call. -/
inductive REvent where
  | cacheHit : REvent
  | scanItem : String → REvent
  | fallback : REvent
deriving DecidableEq

/-- `resolveSlugFromImdbViaPuppeteer(imdbId)` (the letterboxd.js version):
first the lightweight redirect follow, then the `og:url` scrape, each
accepting a matched slug different from `"imdb"`; every fetch error is
caught inside the function, so it returns `none` rather than throwing. -/
def resolveSlugFromImdbViaPuppeteer (env : FallbackEnv) (imdbId : String) :
    Option String :=
  let firstTry :=
    match env.redirectMatch with
    | Except.ok (some s) => if s = "imdb" then none else some s
    | _ => none
  match firstTry with
  | some s => some s
  | none =>
    match env.ogMatch with
    | Except.ok (some s) => if s = "imdb" then none else some s
    | _ => none

/-- Environment for `resolveSlugFromImdb`: the watchlist fetch outcome (a
list of slugs, or a throw), the metadata fetch outcome per slug (the item's
external identifier, or a throw), and the fallback environment. -/
structure ResolveEnv where
  watchlist : Except Unit (List String)
  meta : String → Except Unit (Option String)
  fb : FallbackEnv

/-- The `for (const film of watchlist)` loop: fetch each item's metadata in
order until one matches the queried identifier.  A thrown metadata fetch
propagates (to be caught by the surrounding `try`); the trace records every
item visited. -/
def scanWatchlist (meta : String → Except Unit (Option String)) (imdbId : String) :
    List String → Except Unit (Option String) × List REvent
  | [] => (Except.ok none, [])
  | slug :: rest =>
    match meta slug with
    | Except.error e => (Except.error e, [REvent.scanItem slug])
    | Except.ok mid =>
      if mid = some imdbId then (Except.ok (some slug), [REvent.scanItem slug])
      else
        let (r, tr) := scanWatchlist meta imdbId rest
        (r, REvent.scanItem slug :: tr)

/-- The listing-scan step of `resolveSlugFromImdb`: the `try` block wraps
`getWatchlist` and the scan loop, and its `catch {}` swallows any throw, so
the step yields `none` in that case and the resolver falls through. -/
def resolveScanStep (env : ResolveEnv) (imdbId : String) :
    Option String × List REvent :=
  match env.watchlist with
  | Except.error _ => (none, [])
  | Except.ok films =>
    match scanWatchlist env.meta imdbId films with
    | (Except.ok r, tr) => (r, tr)
    | (Except.error _, tr) => (none, tr)

/-- `resolveSlugFromImdb(imdbId)` (server, part_001 lines 294-314): the
identity map first, then the watchlist scan (recording the match in the
identity map), then the authenticated fallback, whose result is recorded
when present.  The `Except` layer is where an uncaught throw would
surface to the caller. -/
def resolveSlugFromImdb (env : ResolveEnv) (idCache : JMap String) (imdbId : String) :
    Except Unit (Option String) × JMap String × List REvent :=
  match mget idCache imdbId with
  | some slug => (Except.ok (some slug), idCache, [REvent.cacheHit])
  | none =>
    match resolveScanStep env imdbId with
    | (some slug, tr) => (Except.ok (some slug), mset idCache imdbId slug, tr)
    | (none, tr) =>
      match resolveSlugFromImdbViaPuppeteer env.fb imdbId with
      | some slug =>
          (Except.ok (some slug), mset idCache imdbId slug, tr ++ [REvent.fallback])
      | none => (Except.ok none, idCache, tr ++ [REvent.fallback])

/-! ## getUserRating (letterboxd.js lines 133-204) -/

/-- Environment for `getUserRating`: whether credentials are configured,
and the outcome of the authenticated page scrape (the parsed star value or
`null` when the page shows no personal rating; `Except.error` when any of
the browser steps throws). -/
structure URatingEnv where
  hasSession : Bool
  scrape : Except Unit JsVal

/-- `getUserRating(username, slug)`: return the cached value unless the
cache read yielded `null`; with no session, cache `null` for five minutes
and return `null`; otherwise run the authenticated scrape (one
`ratingFetch` trace event), caching its outcome for five minutes — except
on a throw, which returns `null` without caching. -/
def getUserRating (env : URatingEnv) (c : CacheMap) (username slug : String)
    (now : ℕ) : JsVal × CacheMap × List NetEvent :=
  let key := "userrating:" ++ username ++ ":" ++ slug
  let (cached, c1) := getCache c key now
  if cached ≠ JsVal.null then (cached, c1, [])
  else if env.hasSession = false then
    (JsVal.null, setCache c1 key JsVal.null (5 * 60 * 1000) now, [])
  else
    match env.scrape with
    | Except.error _ => (JsVal.null, c1, [NetEvent.ratingFetch slug])
    | Except.ok v =>
        (v, setCache c1 key v (5 * 60 * 1000) now, [NetEvent.ratingFetch slug])

/-! ## The action queue (server, part_001 lines 258-288) -/

/-- A queued job: its identifier and whether its `execute` throws. -/
abbrev Job := ℕ × Bool

/-- Observable side effects of queue execution: a job starting, finishing,
or erroring (its throw caught by the drain loop). -/
inductive QEvent where
  | start : ℕ → QEvent
  | finish : ℕ → QEvent
  | errored : ℕ → QEvent
deriving DecidableEq

/-- The queue state: the pending `puppeteerQueue`, the `puppeteerRunning`
flag, the job currently executing, whether a drain continuation is waiting
to run (the microtask queued when a job settles), the effect log, and the
enqueue requests not yet delivered. -/
structure QState where
  queue : List Job
  running : Bool
  active : Option Job
  draining : Bool
  log : List QEvent
  arrivals : List Job

/-- The synchronous prefix of `processPuppeteerQueue()`: on an empty queue
clear `puppeteerRunning` and stop; otherwise set the flag, shift the first
job and begin executing it (the `start` effect). -/
def processPuppeteerQueue (s : QState) : QState :=
  match s.queue with
  | [] => { s with running := false }
  | j :: rest =>
      { s with running := true, queue := rest, active := some j,
               log := s.log ++ [QEvent.start j.1] }

/-- `enqueuePuppeteer(fn)`: push the job, and start the drain only when it
is not already running. -/
def enqueuePuppeteer (s : QState) (j : Job) : QState :=
  let s1 := { s with queue := s.queue ++ [j] }
  if s1.running then s1 else processPuppeteerQueue s1

/-- One scheduler action: deliver the next pending enqueue; settle the
currently executing job (its `await fn()` resolving or rejecting, which
queues the drain continuation); or run the queued drain continuation
(the recursive `processPuppeteerQueue()` call). -/
inductive QAct where
  | arrive : QAct
  | settle : QAct
  | drain : QAct

/-- The scheduler step.  Disabled actions are no-ops. -/
def qstep (s : QState) : QAct → QState
  | QAct.arrive =>
    match s.arrivals with
    | [] => s
    | j :: rest => enqueuePuppeteer { s with arrivals := rest } j
  | QAct.settle =>
    match s.active with
    | none => s
    | some j =>
        { s with active := none, draining := true,
                 log := s.log ++ [if j.2 then QEvent.errored j.1 else QEvent.finish j.1] }
  | QAct.drain =>
    if s.draining ∧ s.active = none then
      processPuppeteerQueue { s with draining := false }
    else s

/-- Run a list of scheduler actions. -/
def qrun (s : QState) (acts : List QAct) : QState := acts.foldl qstep s

/-- The initial state for a given sequence of jobs to be enqueued. -/
def qInit (arrivals : List Job) : QState :=
  { queue := [], running := false, active := none, draining := false,
    log := [], arrivals := arrivals }

/-- Left-to-right log validation: at most one job is open at any point, and
every `finish`/`errored` closes the job opened by the preceding `start`.
Returns the currently open job, or `none` (of the outer `Option`) when the
log is interleaved or mismatched. -/
def stepLog (cur : Option ℕ) (e : QEvent) : Option (Option ℕ) :=
  match cur, e with
  | none, QEvent.start j => some (some j)
  | some j, QEvent.finish j' => if j' = j then some none else none
  | some j, QEvent.errored j' => if j' = j then some none else none
  | _, _ => none

/-- Validate a whole log. -/
def scanLog (l : List QEvent) : Option (Option ℕ) :=
  List.foldlM stepLog none l

/-- The identifiers of the jobs started so far, in start order. -/
def startedIds (l : List QEvent) : List ℕ :=
  l.filterMap fun e =>
    match e with
    | QEvent.start j => some j
    | _ => none

/-! ## The letterboxd module exports (letterboxd.js line 500) -/

/-- The names exported by `module.exports` of letterboxd.js. -/
def letterboxdExportNames : List String :=
  ["getWatchlist", "getFilmMeta", "getUserRating", "rateFilm", "addToWatchlist",
   "hasSession", "getFromCache", "resolveSlugFromImdbViaPuppeteer"]

/-- The value a destructuring `require('./letterboxd')` binds for a given
name: `undefined` (here `none`) when the module does not export it. -/
def importBinding (name : String) : Option Unit :=
  if name ∈ letterboxdExportNames then some () else none

/-- The body of the queued watchlist-remove job (server, part_001 lines
235-238): it invokes the imported `removeFromWatchlist` binding.  Invoking
an `undefined` binding throws a `TypeError` synchronously, before any
network effect; a defined export would issue the mutating POST. -/
def removeJobRun (slug : String) : Except String (List NetEvent) :=
  match importBinding "removeFromWatchlist" with
  | none => Except.error "TypeError: removeFromWatchlist is not a function"
  | some _ => Except.ok [NetEvent.post ("/s/film:" ++ slug ++ "/watchlist/") none]

/-- Whether the queued watchlist-remove job throws when invoked. -/
def removeJobThrows : Bool :=
  match removeJobRun "slug" with
  | Except.error _ => true
  | Except.ok _ => false

/-! ## Queue invariants -/

theorem foldlM_stepLog_append (l : List QEvent) (e : QEvent) (init : Option ℕ) :
    List.foldlM stepLog init (l ++ [e]) =
      (List.foldlM stepLog init l).bind (fun c => stepLog c e) := by
  induction l generalizing init with
  | nil => simp [List.foldlM]
  | cons a as ih =>
    simp only [List.cons_append, List.foldlM]
    cases h : stepLog init a with
    | none => simp
    | some c => simpa using ih c

theorem scanLog_append (l : List QEvent) (e : QEvent) :
    scanLog (l ++ [e]) = (scanLog l).bind (fun c => stepLog c e) :=
  foldlM_stepLog_append l e none

theorem startedIds_append_start (l : List QEvent) (j : ℕ) :
    startedIds (l ++ [QEvent.start j]) = startedIds l ++ [j] := by
  simp [startedIds, List.filterMap_append]

theorem startedIds_append_finish (l : List QEvent) (j : ℕ) :
    startedIds (l ++ [QEvent.finish j]) = startedIds l := by
  simp [startedIds, List.filterMap_append]

theorem startedIds_append_errored (l : List QEvent) (j : ℕ) :
    startedIds (l ++ [QEvent.errored j]) = startedIds l := by
  simp [startedIds, List.filterMap_append]

/-- The queue invariant: the effect log is well formed and its open job is
exactly the executing one; `puppeteerRunning` is set exactly while a job
executes or a drain continuation waits; when neither holds the queue is
empty; and the started jobs, the queued jobs and the undelivered arrivals
partition the full arrival sequence in order. -/
def QInv (A : List Job) (s : QState) : Prop :=
  scanLog s.log = some (s.active.map Prod.fst)
  ∧ s.running = (s.active.isSome || s.draining)
  ∧ (s.active = none → s.draining = false → s.queue = [])
  ∧ startedIds s.log ++ s.queue.map Prod.fst ++ s.arrivals.map Prod.fst = A.map Prod.fst

theorem qInv_init (A : List Job) : QInv A (qInit A) := by
  refine ⟨rfl, rfl, fun _ _ => rfl, by simp [qInit, startedIds]⟩

theorem qInv_step (A : List Job) (s : QState) (a : QAct) (h : QInv A s) :
    QInv A (qstep s a) := by
  obtain ⟨h1, h2, h3, h4⟩ := h
  cases a with
  | arrive =>
    cases harr : s.arrivals with
    | nil =>
      have hstep : qstep s QAct.arrive = s := by simp only [qstep, harr]
      rw [hstep]
      exact ⟨h1, h2, h3, h4⟩
    | cons j rest =>
      rw [harr] at h4
      have hstep0 : qstep s QAct.arrive = enqueuePuppeteer { s with arrivals := rest } j := by
        simp only [qstep, harr]
      rw [hstep0]
      by_cases hrun : s.running = true
      · have hstep : enqueuePuppeteer { s with arrivals := rest } j
            = { s with arrivals := rest, queue := s.queue ++ [j] } := by
          simp only [enqueuePuppeteer]
          rw [if_pos hrun]
        rw [hstep]
        refine ⟨h1, h2, ?_, ?_⟩
        · intro hact hdr
          have hact' : s.active = none := hact
          have hdr' : s.draining = false := hdr
          rw [hact', hdr', hrun] at h2
          simp at h2
        · show startedIds s.log ++ (s.queue ++ [j]).map Prod.fst
              ++ rest.map Prod.fst = A.map Prod.fst
          simpa [List.append_assoc] using h4
      · have hact : s.active = none := by
          cases hA : s.active with
          | none => rfl
          | some x => rw [hA] at h2; simp at h2; exact absurd h2 hrun
        have hdr : s.draining = false := by
          cases hD : s.draining with
          | false => rfl
          | true => rw [hD, hact] at h2; simp at h2; exact absurd h2 hrun
        have hq : s.queue = [] := h3 hact hdr
        rw [hact] at h1
        rw [hq] at h4
        have hstep : enqueuePuppeteer { s with arrivals := rest } j
            = { s with
                arrivals := rest, queue := [], running := true,
                active := some j, log := s.log ++ [QEvent.start j.1] } := by
          simp only [enqueuePuppeteer]
          rw [if_neg hrun]
          simp only [processPuppeteerQueue, hq, List.nil_append]
        rw [hstep]
        refine ⟨?_, by simp [hdr], fun _ _ => rfl, ?_⟩
        · show scanLog (s.log ++ [QEvent.start j.1]) = some (some j.1)
          rw [scanLog_append, h1]
          rfl
        · show startedIds (s.log ++ [QEvent.start j.1]) ++ List.map Prod.fst []
              ++ rest.map Prod.fst = A.map Prod.fst
          rw [startedIds_append_start]
          simpa using h4
  | settle =>
    cases hA : s.active with
    | none => simp only [qstep, hA]; exact ⟨h1, h2, h3, h4⟩
    | some j =>
      rw [hA] at h1 h2
      simp only [qstep, hA]
      refine ⟨?_, ?_, ?_, ?_⟩
      · show scanLog (s.log ++ [if j.2 then QEvent.errored j.1 else QEvent.finish j.1])
            = some none
        rw [scanLog_append, h1]
        cases hj : j.2 <;> simp [stepLog]
      · show s.running = (Option.isSome none || true)
        rw [h2]
        simp
      · intro _ hdr
        exact absurd hdr (by simp)
      · show startedIds (s.log ++ [if j.2 then QEvent.errored j.1 else QEvent.finish j.1])
              ++ s.queue.map Prod.fst ++ s.arrivals.map Prod.fst = A.map Prod.fst
        cases hj : j.2
        · rw [if_neg (by simp [hj]), startedIds_append_finish]
          exact h4
        · rw [if_pos (by simp [hj]), startedIds_append_errored]
          exact h4
  | drain =>
    by_cases hcond : (s.draining = true ∧ s.active = none)
    · obtain ⟨hdr, hact⟩ := hcond
      rw [hact] at h1
      have hstep0 : qstep s QAct.drain = processPuppeteerQueue { s with draining := false } := by
        simp only [qstep]
        rw [if_pos ⟨hdr, hact⟩]
      rw [hstep0]
      cases hq : s.queue with
      | nil =>
        rw [hq] at h4
        have hstep : processPuppeteerQueue { s with queue := [], draining := false }
            = { s with queue := [], draining := false, running := false } := by
          simp only [processPuppeteerQueue]
        rw [hstep]
        refine ⟨?_, by simp [hact], fun _ _ => rfl, by simpa using h4⟩
        · show scanLog s.log = some (s.active.map Prod.fst)
          rw [hact, h1]
      | cons j rest =>
        rw [hq] at h4
        have hstep : processPuppeteerQueue { s with queue := j :: rest, draining := false }
            = { s with
                draining := false, running := true, queue := rest,
                active := some j, log := s.log ++ [QEvent.start j.1] } := by
          simp only [processPuppeteerQueue]
        rw [hstep]
        refine ⟨?_, by simp, fun hx _ => by simp at hx, ?_⟩
        · show scanLog (s.log ++ [QEvent.start j.1]) = some (some j.1)
          rw [scanLog_append, h1]
          rfl
        · show startedIds (s.log ++ [QEvent.start j.1]) ++ rest.map Prod.fst
              ++ s.arrivals.map Prod.fst = A.map Prod.fst
          rw [startedIds_append_start]
          simpa [List.append_assoc] using h4
    · have hstep : qstep s QAct.drain = s := by
        simp only [qstep]
        rw [if_neg hcond]
      rw [hstep]
      exact ⟨h1, h2, h3, h4⟩

theorem qInv_run (A : List Job) (s : QState) (acts : List QAct) (h : QInv A s) :
    QInv A (qrun s acts) := by
  induction acts generalizing s with
  | nil => exact h
  | cons a as ih => exact ih (qstep s a) (qInv_step A s a h)

/-- Claim C1: the action queue is single-flight FIFO.  For every sequence
of jobs passed to `enqueuePuppeteer` and every interleaving of deliveries,
job settlements and drain continuations: the effect log is well formed —
each job that starts runs to its own `finish`/`errored` before any other
job starts, so at most one job executes at any time; the jobs start in
exactly the order they were enqueued (a prefix of the arrival sequence);
and once every arrival is delivered and the queue has drained, every job
has been started, in arrival order. -/
theorem c1_queue_single_flight_fifo (A : List Job) (acts : List QAct) :
    (∃ cur, scanLog (qrun (qInit A) acts).log = some cur)
    ∧ startedIds (qrun (qInit A) acts).log <+: A.map Prod.fst
    ∧ ((qrun (qInit A) acts).arrivals = [] → (qrun (qInit A) acts).active = none →
        (qrun (qInit A) acts).draining = false →
        startedIds (qrun (qInit A) acts).log = A.map Prod.fst) := by
  obtain ⟨h1, h2, h3, h4⟩ := qInv_run A (qInit A) acts (qInv_init A)
  refine ⟨⟨_, h1⟩, ?_, ?_⟩
  · rw [← h4, List.append_assoc]
    exact List.prefix_append _ _
  · intro harr hact hdr
    rw [h3 hact hdr, harr] at h4
    simpa using h4

/-- Witness for C1: three jobs enqueued (the third arriving while the
first is mid-execution), fully drained, start in arrival order. -/
theorem c1_queue_single_flight_fifo_witness :
    startedIds (qrun (qInit [(1, false), (2, false), (3, false)])
      [QAct.arrive, QAct.arrive, QAct.settle, QAct.arrive, QAct.drain,
       QAct.settle, QAct.drain, QAct.settle, QAct.drain]).log = [1, 2, 3] :=
  (c1_queue_single_flight_fifo [(1, false), (2, false), (3, false)]
    [QAct.arrive, QAct.arrive, QAct.settle, QAct.arrive, QAct.drain,
     QAct.settle, QAct.drain, QAct.settle, QAct.drain]).2.2 rfl rfl rfl

/-- Claim C2: per key, the dedup check accepts the first request and
records its time; it rejects, without changing the map, any request less
than 5000 ms after the last accepted one; and it accepts again, updating
the recorded time, once the window has elapsed.  Stored timestamps come
from the clock, hence the positivity hypothesis on the recorded time. -/
theorem c2_dedup_window (m : JMap ℕ) (imdbId action : String) (now t : ℕ) :
    (mget m (imdbId ++ ":" ++ action) = none →
      deduplicateRating m imdbId action now
        = (true, mset m (imdbId ++ ":" ++ action) now))
    ∧ (mget m (imdbId ++ ":" ++ action) = some t → 0 < t → now < t + 5000 →
      deduplicateRating m imdbId action now = (false, m))
    ∧ (mget m (imdbId ++ ":" ++ action) = some t → t + 5000 ≤ now →
      deduplicateRating m imdbId action now
        = (true, mset m (imdbId ++ ":" ++ action) now)) := by
  refine ⟨?_, ?_, ?_⟩
  · intro h
    simp only [deduplicateRating, h]
  · intro h ht hw
    simp only [deduplicateRating, h]
    rw [if_pos ⟨by omega, by omega⟩]
  · intro h hw
    simp only [deduplicateRating, h]
    rw [if_neg (by omega)]

/-- Witness for C2: a fresh key is accepted with its time recorded; a
repeat 3000 ms later is rejected; a repeat 5000 ms later is accepted. -/
theorem c2_dedup_window_witness :
    deduplicateRating memp "tt1" "5" 1000 = (true, mset memp "tt1:5" 1000)
    ∧ deduplicateRating (mset memp "tt1:5" 1000) "tt1" "5" 4000
        = (false, mset memp "tt1:5" 1000)
    ∧ deduplicateRating (mset memp "tt1:5" 1000) "tt1" "5" 6000
        = (true, mset (mset memp "tt1:5" 1000) "tt1:5" 6000) :=
  ⟨(c2_dedup_window memp "tt1" "5" 1000 0).1 rfl,
   (c2_dedup_window (mset memp "tt1:5" 1000) "tt1" "5" 4000 1000).2.1
     (by decide) (by decide) (by decide),
   (c2_dedup_window (mset memp "tt1:5" 1000) "tt1" "5" 6000 1000).2.2
     (by decide) (by decide)⟩

/-- Counterexample to claim C6: the claim says a `get` at a time at or past
the expiry returns absent, but the code evicts only when `now` is strictly
greater than `expiresAt`, so a `get` at exactly the expiry still returns
the stored value. -/
theorem c6_cache_at_expiry_cex :
    ¬ ((getCache (setCache memp "k" (JsVal.num 1) 5 0) "k" 5).1 = JsVal.null) := by
  decide

/-- Claim C6 as amended: `get` after `set(k, v, ttl)` returns `v` while the
current time is at most the expiry `now + ttl` (leaving the cache alone),
returns `null` and evicts the entry once the current time is strictly past
the expiry, and a second `set` on the same key overwrites both the value
and the expiry. -/
theorem c6_cache_ttl_amended (c : CacheMap) (k : String) (v : JsVal)
    (ttl now t : ℕ) :
    (t ≤ now + ttl →
      getCache (setCache c k v ttl now) k t = (v, setCache c k v ttl now))
    ∧ (now + ttl < t →
      (getCache (setCache c k v ttl now) k t).1 = JsVal.null
      ∧ mget (getCache (setCache c k v ttl now) k t).2 k = none)
    ∧ (∀ (v' : JsVal) (ttl' now' : ℕ),
      mget (setCache (setCache c k v ttl now) k v' ttl' now') k
        = some ⟨v', now' + ttl'⟩) := by
  have hm : mget (setCache c k v ttl now) k = some ⟨v, now + ttl⟩ :=
    mget_mset_self c k ⟨v, now + ttl⟩
  refine ⟨?_, ?_, ?_⟩
  · intro h
    simp only [getCache, hm]
    rw [if_neg (by omega)]
  · intro h
    simp only [getCache, hm]
    rw [if_pos (by omega)]
    exact ⟨rfl, mget_mdel_self _ k⟩
  · intro v' ttl' now'
    exact mget_mset_self _ k _

/-- Witness for the amended C6: a value set at time 0 with a 5 ms TTL is
still returned at time 5, gone at time 6, and a second `set` overwrites. -/
theorem c6_cache_ttl_amended_witness :
    getCache (setCache memp "k" (JsVal.num 1) 5 0) "k" 5
      = (JsVal.num 1, setCache memp "k" (JsVal.num 1) 5 0)
    ∧ (getCache (setCache memp "k" (JsVal.num 1) 5 0) "k" 6).1 = JsVal.null
    ∧ mget (setCache (setCache memp "k" (JsVal.num 1) 5 0) "k" (JsVal.num 2) 7 10) "k"
        = some ⟨JsVal.num 2, 17⟩ :=
  ⟨(c6_cache_ttl_amended memp "k" (JsVal.num 1) 5 0 5).1 (by decide),
   ((c6_cache_ttl_amended memp "k" (JsVal.num 1) 5 0 6).2.1 (by decide)).1,
   (c6_cache_ttl_amended memp "k" (JsVal.num 1) 5 0 0).2.2 (JsVal.num 2) 7 10⟩

/-- Claim C10: the negative caching in `getUserRating` is ineffective.
When the cache holds an unexpired entry whose stored value is `null` (the
no-rating marker written with a five-minute TTL), the guard
`cached !== null` does not short-circuit, so the call performs the full
authenticated page fetch again. -/
theorem c10_null_cache_ineffective (env : URatingEnv) (c : CacheMap)
    (username slug : String) (now e : ℕ)
    (hs : env.hasSession = true)
    (hc : mget c ("userrating:" ++ username ++ ":" ++ slug) = some ⟨JsVal.null, e⟩)
    (hfresh : now ≤ e) :
    (getUserRating env c username slug now).2.2 = [NetEvent.ratingFetch slug] := by
  simp only [getUserRating, getCache, hc]
  rw [if_neg (by omega : ¬ now > e)]
  simp only [ne_eq, not_true_eq_false, Bool.false_eq_true, if_false, hs]
  cases env.scrape <;> simp

/-- Witness for C10: with a fresh five-minute `null` entry written at time
0, a call at time 1000 still performs the authenticated fetch. -/
theorem c10_null_cache_ineffective_witness :
    (getUserRating ⟨true, Except.ok (JsVal.num 4)⟩
      (setCache memp "userrating:u:slug" JsVal.null (5 * 60 * 1000) 0)
      "u" "slug" 1000).2.2 = [NetEvent.ratingFetch "slug"] :=
  c10_null_cache_ineffective ⟨true, Except.ok (JsVal.num 4)⟩
    (setCache memp "userrating:u:slug" JsVal.null (5 * 60 * 1000) 0)
    "u" "slug" 1000 300000 rfl (by decide) (by decide)

/-- Claim C3: the accepted star ratings are exactly the half-integers from
0.5 to 5.0; each maps to the internal value `2 * stars`; on any other
input `rateFilm` fails with the invalid-rating error before any network
action or session use (empty trace, state and cache untouched); and on an
accepted rating the mutating POST carries exactly the mapped value. -/
theorem c3_rating_domain_and_mapping :
    (∀ k : ℕ, 1 ≤ k → k ≤ 10 →
      ∃ n, RATING_MAP (starStr k) = some n ∧ (n : ℚ) = 2 * starOfNat k)
    ∧ (∀ star n, RATING_MAP star = some n →
      ∃ k, 1 ≤ k ∧ k ≤ 10 ∧ star = starStr k ∧ n = k)
    ∧ (∀ (env : ActionEnv) (s : SessionState) (c : CacheMap) (slug star : String)
        (now : ℕ), RATING_MAP star = none →
      rateFilm env s c slug star now
        = (ActionResult.failure ("Invalid rating value: " ++ star), s, c, []))
    ∧ (∀ (env : ActionEnv) (cs fid slug star : String) (n status : ℕ) (b : Bool)
        (c : CacheMap) (now : ℕ),
      RATING_MAP star = some n → env.filmId = some fid →
      env.post = PostOutcome.reply status b →
      NetEvent.post ("/s/film:" ++ fid ++ "/rate/") (some n)
        ∈ (rateFilm env ⟨some true, true, some cs⟩ c slug star now).2.2.2) := by
  refine ⟨?_, ?_, ?_, ?_⟩
  · intro k h1 h10
    interval_cases k <;> exact ⟨_, rfl, by norm_num [starOfNat]⟩
  · intro star n h
    simp only [RATING_MAP] at h
    split_ifs at h with h1 h2 h3 h4 h5 h6 h7 h8 h9 h10
    · exact ⟨1, by norm_num, by norm_num, h1, (Option.some.inj h).symm⟩
    · exact ⟨2, by norm_num, by norm_num, h2, (Option.some.inj h).symm⟩
    · exact ⟨3, by norm_num, by norm_num, h3, (Option.some.inj h).symm⟩
    · exact ⟨4, by norm_num, by norm_num, h4, (Option.some.inj h).symm⟩
    · exact ⟨5, by norm_num, by norm_num, h5, (Option.some.inj h).symm⟩
    · exact ⟨6, by norm_num, by norm_num, h6, (Option.some.inj h).symm⟩
    · exact ⟨7, by norm_num, by norm_num, h7, (Option.some.inj h).symm⟩
    · exact ⟨8, by norm_num, by norm_num, h8, (Option.some.inj h).symm⟩
    · exact ⟨9, by norm_num, by norm_num, h9, (Option.some.inj h).symm⟩
    · exact ⟨10, by norm_num, by norm_num, h10, (Option.some.inj h).symm⟩
  · intro env s c slug star now h
    simp only [rateFilm, h]
  · intro env cs fid slug star n status b c now hstar hfid hpost
    rcases hm : getFilmMetaEff env.metaValue env.metaThrows c slug now with ⟨c2, tr2⟩
    simp only [rateFilm, hstar, ensureBrowserLoggedIn, getBrowser, puppeteerPost,
      hm, hfid, hpost]
    by_cases h200 : status = 200 <;> by_cases hb : b = true <;>
      by_cases h403 : status = 403 <;> simp [h200, hb, h403]

/-- Witness for C3: star 4.5 maps to internal 9 and the POST carries 9;
star "0" fails with the invalid-rating error on an empty trace. -/
theorem c3_rating_domain_and_mapping_witness :
    (∃ n, RATING_MAP (starStr 9) = some n ∧ (n : ℚ) = 2 * starOfNat 9)
    ∧ rateFilm ⟨⟨true, LoginOutcome.ok (some "c")⟩, JsVal.null, false, some "42",
        PostOutcome.reply 200 true, "u"⟩ ⟨none, false, none⟩ memp "slug" "0" 0
      = (ActionResult.failure "Invalid rating value: 0", ⟨none, false, none⟩, memp, [])
    ∧ NetEvent.post "/s/film:42/rate/" (some 9)
        ∈ (rateFilm ⟨⟨true, LoginOutcome.ok (some "c")⟩, JsVal.null, false, some "42",
            PostOutcome.reply 200 true, "u"⟩ ⟨some true, true, some "c"⟩ memp
            "slug" "4.5" 0).2.2.2 :=
  ⟨c3_rating_domain_and_mapping.1 9 (by decide) (by decide),
   c3_rating_domain_and_mapping.2.2.1
     ⟨⟨true, LoginOutcome.ok (some "c")⟩, JsVal.null, false, some "42",
       PostOutcome.reply 200 true, "u"⟩ ⟨none, false, none⟩ memp "slug" "0" 0 (by decide),
   c3_rating_domain_and_mapping.2.2.2
     ⟨⟨true, LoginOutcome.ok (some "c")⟩, JsVal.null, false, some "42",
       PostOutcome.reply 200 true, "u"⟩ "c" "42" "slug" "4.5" 9 200 true memp 0
     (by decide) rfl rfl⟩

/-- Counterexample to claim C4: after a 403 on a rating action the next
`ensureBrowserLoggedIn` does not relaunch the browser — its trace has no
launch event, only the relogin — because the 403 handler clears only
`browserLoggedIn` and `sessionCsrf`, leaving the connected browser in
place for `getBrowser` to reuse. -/
theorem c4_no_relaunch_after_403_cex :
    NetEvent.launch ∉
      (ensureBrowserLoggedIn ⟨true, LoginOutcome.ok (some "c2")⟩
        (rateFilm ⟨⟨true, LoginOutcome.ok (some "c")⟩, JsVal.null, false, some "42",
           PostOutcome.reply 403 false, "u"⟩
          ⟨some true, true, some "c"⟩ memp "slug" "5" 0).2.1).2.2 := by
  decide

/-- Claim C4 as amended: when a logged-in session's rating action receives
a 403 reply, the session drops to an invalidated state — login flag
cleared and anti-forgery token erased — while the browser handle is kept;
the next `ensureBrowserLoggedIn` then performs the login transcript before
returning, reusing the still-connected browser without relaunching it. -/
theorem c4_session_recovery_amended (env env2 : ActionEnv) (cs fid slug star : String)
    (n : ℕ) (b : Bool) (c : CacheMap) (now : ℕ) (csrf2 : Option String)
    (hstar : RATING_MAP star = some n) (hfid : env.filmId = some fid)
    (hpost : env.post = PostOutcome.reply 403 b)
    (hcred : env2.sess.hasCredentials = true)
    (hlogin : env2.sess.login = LoginOutcome.ok csrf2) :
    (rateFilm env ⟨some true, true, some cs⟩ c slug star now).2.1
      = ⟨some true, false, none⟩
    ∧ ensureBrowserLoggedIn env2.sess
        (rateFilm env ⟨some true, true, some cs⟩ c slug star now).2.1
      = (Except.ok (), ⟨some true, true, csrf2⟩, [NetEvent.login]) := by
  rcases hm : getFilmMetaEff env.metaValue env.metaThrows c slug now with ⟨c2, tr2⟩
  have hstate : (rateFilm env ⟨some true, true, some cs⟩ c slug star now).2.1
      = ⟨some true, false, none⟩ := by
    simp [rateFilm, hstar, ensureBrowserLoggedIn, getBrowser, puppeteerPost,
      hm, hfid, hpost]
  refine ⟨hstate, ?_⟩
  rw [hstate]
  simp [ensureBrowserLoggedIn, getBrowser, hcred, hlogin]

/-- Witness for the amended C4: a concrete 403 on a five-star rating, then
a relogin without relaunch. -/
theorem c4_session_recovery_amended_witness :
    (rateFilm ⟨⟨true, LoginOutcome.ok (some "c")⟩, JsVal.null, false, some "42",
        PostOutcome.reply 403 false, "u"⟩ ⟨some true, true, some "c"⟩ memp
        "slug" "5" 0).2.1 = ⟨some true, false, none⟩
    ∧ ensureBrowserLoggedIn ⟨true, LoginOutcome.ok (some "c2")⟩
        (rateFilm ⟨⟨true, LoginOutcome.ok (some "c")⟩, JsVal.null, false, some "42",
          PostOutcome.reply 403 false, "u"⟩ ⟨some true, true, some "c"⟩ memp
          "slug" "5" 0).2.1
      = (Except.ok (), ⟨some true, true, some "c2"⟩, [NetEvent.login]) :=
  c4_session_recovery_amended
    ⟨⟨true, LoginOutcome.ok (some "c")⟩, JsVal.null, false, some "42",
      PostOutcome.reply 403 false, "u"⟩
    ⟨⟨true, LoginOutcome.ok (some "c2")⟩, JsVal.null, false, some "42",
      PostOutcome.reply 403 false, "u"⟩
    "c" "42" "slug" "5" 10 false memp 0 (some "c2") (by decide) rfl rfl rfl rfl

/-- Counterexample to claim C7: when an exception (here a thrown login) is
raised during `addToWatchlist`, its `catch` block returns the failure
without resetting the browser handle — the browser field is still set
afterwards, contrary to the claimed force-discard for every mutating
action. -/
theorem c7_watchlist_no_discard_cex :
    ¬ ((addToWatchlist ⟨⟨true, LoginOutcome.throws⟩, JsVal.null, false, some "42",
          PostOutcome.reply 200 true, "u"⟩ ⟨some true, false, some "x"⟩ memp
          "slug").2.1.browser = none) := by
  decide

/-- Claim C7 as amended: on an unrecoverable exception during the action,
`rateFilm` force-discards the whole browser instance — handle reset, login
flag and anti-forgery token cleared — before returning its failure, but
`addToWatchlist` returns its failure with the session state left as it
was.  Both exception paths are covered: a thrown login transcript and a
thrown POST. -/
theorem c7_exception_discard_amended (env : ActionEnv) (c : CacheMap)
    (slug star cs : String) (n now : ℕ) :
    (RATING_MAP star = some n → env.sess.hasCredentials = true →
      env.sess.login = LoginOutcome.throws →
      ((rateFilm env ⟨some true, false, some cs⟩ c slug star now).2.1 = discardedSession
        ∧ (rateFilm env ⟨some true, false, some cs⟩ c slug star now).1
            ≠ ActionResult.success
        ∧ (addToWatchlist env ⟨some true, false, some cs⟩ c slug).2.1
            = ⟨some true, false, some cs⟩
        ∧ (addToWatchlist env ⟨some true, false, some cs⟩ c slug).1
            ≠ ActionResult.success))
    ∧ (∀ fid, RATING_MAP star = some n → env.filmId = some fid →
      env.post = PostOutcome.throws →
      ((rateFilm env ⟨some true, true, some cs⟩ c slug star now).2.1 = discardedSession
        ∧ (rateFilm env ⟨some true, true, some cs⟩ c slug star now).1
            ≠ ActionResult.success
        ∧ (addToWatchlist env ⟨some true, true, some cs⟩ c slug).2.1
            = ⟨some true, true, some cs⟩
        ∧ (addToWatchlist env ⟨some true, true, some cs⟩ c slug).1
            ≠ ActionResult.success)) := by
  constructor
  · intro hstar hcred hlogin
    rcases hm : getFilmMetaEff env.metaValue env.metaThrows c slug now with ⟨c2, tr2⟩
    refine ⟨?_, ?_, ?_, ?_⟩ <;>
      simp [rateFilm, addToWatchlist, hstar, ensureBrowserLoggedIn, getBrowser,
        hcred, hlogin, hm]
  · intro fid hstar hfid hpost
    rcases hm : getFilmMetaEff env.metaValue env.metaThrows c slug now with ⟨c2, tr2⟩
    refine ⟨?_, ?_, ?_, ?_⟩ <;>
      simp [rateFilm, addToWatchlist, hstar, ensureBrowserLoggedIn, getBrowser,
        puppeteerPost, hfid, hpost, hm]

/-- Witness for the amended C7: a thrown POST during a five-star rating
discards the browser in `rateFilm` but leaves it in `addToWatchlist`. -/
theorem c7_exception_discard_amended_witness :
    (rateFilm ⟨⟨true, LoginOutcome.ok (some "c")⟩, JsVal.null, false, some "42",
        PostOutcome.throws, "u"⟩ ⟨some true, true, some "c"⟩ memp
        "slug" "5" 0).2.1 = discardedSession
    ∧ (rateFilm ⟨⟨true, LoginOutcome.ok (some "c")⟩, JsVal.null, false, some "42",
        PostOutcome.throws, "u"⟩ ⟨some true, true, some "c"⟩ memp
        "slug" "5" 0).1 ≠ ActionResult.success
    ∧ (addToWatchlist ⟨⟨true, LoginOutcome.ok (some "c")⟩, JsVal.null, false, some "42",
        PostOutcome.throws, "u"⟩ ⟨some true, true, some "c"⟩ memp "slug").2.1
        = ⟨some true, true, some "c"⟩
    ∧ (addToWatchlist ⟨⟨true, LoginOutcome.ok (some "c")⟩, JsVal.null, false,
        some "42", PostOutcome.throws, "u"⟩ ⟨some true, true, some "c"⟩ memp
        "slug").1 ≠ ActionResult.success :=
  (c7_exception_discard_amended
    ⟨⟨true, LoginOutcome.ok (some "c")⟩, JsVal.null, false, some "42",
      PostOutcome.throws, "u"⟩ memp "slug" "5" "c" 10 0).2 "42" (by decide) rfl rfl

theorem fallback_not_mem_scanWatchlist (meta : String → Except Unit (Option String))
    (imdbId : String) (films : List String) :
    REvent.fallback ∉ (scanWatchlist meta imdbId films).2 := by
  induction films with
  | nil => simp [scanWatchlist]
  | cons slug rest ih =>
    simp only [scanWatchlist]
    cases meta slug with
    | error e => simp
    | ok mid =>
      by_cases h : mid = some imdbId
      · simp [h]
      · rcases hs : scanWatchlist meta imdbId rest with ⟨r, tr⟩
        rw [hs] at ih
        simp only [h, if_neg h, hs]
        simpa using ih

theorem fallback_not_mem_scanStep (env : ResolveEnv) (imdbId : String) :
    REvent.fallback ∉ (resolveScanStep env imdbId).2 := by
  simp only [resolveScanStep]
  cases env.watchlist with
  | error e => simp
  | ok films =>
    have h := fallback_not_mem_scanWatchlist env.meta imdbId films
    rcases hs : scanWatchlist env.meta imdbId films with ⟨r, tr⟩
    rw [hs] at h
    simp only [hs]
    cases r with
    | error e => simpa using h
    | ok v => simpa using h

/-- Claim C5: `resolveSlugFromImdb` tries its strategies in strict order —
identity map, then the cached-watchlist scan with per-item metadata
fetches, then the authenticated/redirect fallback — short-circuiting on
the first success; when the first two yield nothing the fallback runs
exactly once and its result (possibly `none`, the not-found outcome) is
returned; and the resolver never propagates a thrown exception to its
caller. -/
theorem c5_resolver_fallback_chain (env : ResolveEnv) (idCache : JMap String)
    (imdbId : String) :
    (∀ slug, mget idCache imdbId = some slug →
      resolveSlugFromImdb env idCache imdbId
        = (Except.ok (some slug), idCache, [REvent.cacheHit]))
    ∧ (∀ slug tr, mget idCache imdbId = none →
      resolveScanStep env imdbId = (some slug, tr) →
      resolveSlugFromImdb env idCache imdbId
        = (Except.ok (some slug), mset idCache imdbId slug, tr)
      ∧ REvent.fallback ∉ tr)
    ∧ (∀ tr, mget idCache imdbId = none →
      resolveScanStep env imdbId = (none, tr) →
      (resolveSlugFromImdb env idCache imdbId).1
        = Except.ok (resolveSlugFromImdbViaPuppeteer env.fb imdbId)
      ∧ (resolveSlugFromImdb env idCache imdbId).2.2 = tr ++ [REvent.fallback]
      ∧ List.count REvent.fallback (resolveSlugFromImdb env idCache imdbId).2.2 = 1)
    ∧ (∃ r, (resolveSlugFromImdb env idCache imdbId).1 = Except.ok r) := by
  refine ⟨?_, ?_, ?_, ?_⟩
  · intro slug h
    simp only [resolveSlugFromImdb, h]
  · intro slug tr h hscan
    have hnf := fallback_not_mem_scanStep env imdbId
    rw [hscan] at hnf
    refine ⟨?_, by simpa using hnf⟩
    simp only [resolveSlugFromImdb, h, hscan]
  · intro tr h hscan
    have hnf := fallback_not_mem_scanStep env imdbId
    rw [hscan] at hnf
    have hcount : List.count REvent.fallback tr = 0 :=
      List.count_eq_zero.mpr (by simpa using hnf)
    refine ⟨?_, ?_, ?_⟩ <;>
      simp only [resolveSlugFromImdb, h, hscan] <;>
      cases hfb : resolveSlugFromImdbViaPuppeteer env.fb imdbId <;>
      simp [hfb, List.count_append, hcount]
  · simp only [resolveSlugFromImdb]
    cases h : mget idCache imdbId with
    | some slug => exact ⟨some slug, rfl⟩
    | none =>
      rcases hscan : resolveScanStep env imdbId with ⟨r, tr⟩
      cases r with
      | some slug => exact ⟨some slug, rfl⟩
      | none =>
        cases hfb : resolveSlugFromImdbViaPuppeteer env.fb imdbId with
        | none => exact ⟨none, rfl⟩
        | some slug => exact ⟨some slug, rfl⟩

/-- Witness for C5: a two-item watchlist without the queried identifier
and a failing fallback give a not-found result with the fallback invoked
exactly once. -/
theorem c5_resolver_fallback_chain_witness :
    (resolveSlugFromImdb
      ⟨Except.ok ["f1", "f2"],
       fun s => if s = "f1" then Except.ok (some "ttA")
                else if s = "f2" then Except.ok (some "ttB") else Except.ok none,
       ⟨Except.ok none, Except.ok none⟩⟩ memp "ttZ").1 = Except.ok none
    ∧ (resolveSlugFromImdb
      ⟨Except.ok ["f1", "f2"],
       fun s => if s = "f1" then Except.ok (some "ttA")
                else if s = "f2" then Except.ok (some "ttB") else Except.ok none,
       ⟨Except.ok none, Except.ok none⟩⟩ memp "ttZ").2.2
      = [REvent.scanItem "f1", REvent.scanItem "f2"] ++ [REvent.fallback]
    ∧ List.count REvent.fallback (resolveSlugFromImdb
      ⟨Except.ok ["f1", "f2"],
       fun s => if s = "f1" then Except.ok (some "ttA")
                else if s = "f2" then Except.ok (some "ttB") else Except.ok none,
       ⟨Except.ok none, Except.ok none⟩⟩ memp "ttZ").2.2 = 1 :=
  (c5_resolver_fallback_chain
    ⟨Except.ok ["f1", "f2"],
     fun s => if s = "f1" then Except.ok (some "ttA")
              else if s = "f2" then Except.ok (some "ttB") else Except.ok none,
     ⟨Except.ok none, Except.ok none⟩⟩ memp "ttZ").2.2.1
    [REvent.scanItem "f1", REvent.scanItem "f2"] rfl (by decide)

/-- Counterexample to claim C8: resolving "ttB" scans past the watchlist
item "f1" (whose metadata maps it to "ttA") before matching "f2", yet the
identity map afterwards holds no entry for "ttA" — the scan records only
the match, not every visited item. -/
theorem c8_scan_populates_only_match_cex :
    REvent.scanItem "f1" ∈ (resolveSlugFromImdb
      ⟨Except.ok ["f1", "f2"],
       fun s => if s = "f1" then Except.ok (some "ttA")
                else if s = "f2" then Except.ok (some "ttB") else Except.ok none,
       ⟨Except.ok none, Except.ok none⟩⟩ memp "ttB").2.2
    ∧ mget (resolveSlugFromImdb
      ⟨Except.ok ["f1", "f2"],
       fun s => if s = "f1" then Except.ok (some "ttA")
                else if s = "f2" then Except.ok (some "ttB") else Except.ok none,
       ⟨Except.ok none, Except.ok none⟩⟩ memp "ttB").2.1 "ttA" = none
    ∧ mget (resolveSlugFromImdb
      ⟨Except.ok ["f1", "f2"],
       fun s => if s = "f1" then Except.ok (some "ttA")
                else if s = "f2" then Except.ok (some "ttB") else Except.ok none,
       ⟨Except.ok none, Except.ok none⟩⟩ memp "ttB").2.1 "ttB" = some "f2" := by
  refine ⟨by decide, by decide, by decide⟩

/-- Claim C8 as amended: the scan step of `resolveSlugFromImdb` populates
the identity map only for the queried identifier (bound to the matching
item when one is found); every other key of the identity map is left
exactly as it was, so visited non-matching items are not recorded. -/
theorem c8_scan_populates_only_match_amended (env : ResolveEnv)
    (idCache : JMap String) (imdbId k : String) (hk : k ≠ imdbId) :
    mget (resolveSlugFromImdb env idCache imdbId).2.1 k = mget idCache k
    ∧ (∀ slug tr, mget idCache imdbId = none →
      resolveScanStep env imdbId = (some slug, tr) →
      mget (resolveSlugFromImdb env idCache imdbId).2.1 imdbId = some slug) := by
  constructor
  · simp only [resolveSlugFromImdb]
    cases h : mget idCache imdbId with
    | some slug => rfl
    | none =>
      rcases hscan : resolveScanStep env imdbId with ⟨r, tr⟩
      cases r with
      | some slug => exact mget_mset_ne idCache imdbId k slug hk
      | none =>
        cases hfb : resolveSlugFromImdbViaPuppeteer env.fb imdbId with
        | none => rfl
        | some slug => exact mget_mset_ne idCache imdbId k slug hk
  · intro slug tr h hscan
    simp only [resolveSlugFromImdb, h, hscan]
    exact mget_mset_self idCache imdbId slug

/-- Witness for the amended C8: in the counterexample scenario, the
visited non-matching key "ttA" is untouched and the queried "ttB" is bound
to its match "f2". -/
theorem c8_scan_populates_only_match_amended_witness :
    mget (resolveSlugFromImdb
      ⟨Except.ok ["f1", "f2"],
       fun s => if s = "f1" then Except.ok (some "ttA")
                else if s = "f2" then Except.ok (some "ttB") else Except.ok none,
       ⟨Except.ok none, Except.ok none⟩⟩ memp "ttB").2.1 "ttA" = mget memp "ttA"
    ∧ mget (resolveSlugFromImdb
      ⟨Except.ok ["f1", "f2"],
       fun s => if s = "f1" then Except.ok (some "ttA")
                else if s = "f2" then Except.ok (some "ttB") else Except.ok none,
       ⟨Except.ok none, Except.ok none⟩⟩ memp "ttB").2.1 "ttB" = some "f2" :=
  ⟨(c8_scan_populates_only_match_amended
      ⟨Except.ok ["f1", "f2"],
       fun s => if s = "f1" then Except.ok (some "ttA")
                else if s = "f2" then Except.ok (some "ttB") else Except.ok none,
       ⟨Except.ok none, Except.ok none⟩⟩ memp "ttB" "ttA" (by decide)).1,
   (c8_scan_populates_only_match_amended
      ⟨Except.ok ["f1", "f2"],
       fun s => if s = "f1" then Except.ok (some "ttA")
                else if s = "f2" then Except.ok (some "ttB") else Except.ok none,
       ⟨Except.ok none, Except.ok none⟩⟩ memp "ttB" "ttA" (by decide)).2
     "f2" [REvent.scanItem "f1", REvent.scanItem "f2"] rfl (by decide)⟩

/-- Claim C9: the letterboxd module never exports `removeFromWatchlist`,
so the server's destructured import binds `undefined`; the queued
watchlist-remove job therefore throws on invocation before issuing any
mutating network call, and the queue's catch keeps the following job
running (it errors the first job and still starts and finishes the
second). -/
theorem c9_remove_from_watchlist_undefined :
    "removeFromWatchlist" ∉ letterboxdExportNames
    ∧ removeJobRun "slug"
        = Except.error "TypeError: removeFromWatchlist is not a function"
    ∧ removeJobThrows = true
    ∧ (qrun (qInit [(1, removeJobThrows), (2, false)])
        [QAct.arrive, QAct.arrive, QAct.settle, QAct.drain, QAct.settle,
         QAct.drain]).log
      = [QEvent.start 1, QEvent.errored 1, QEvent.start 2, QEvent.finish 2] := by
  refine ⟨by decide, rfl, by decide, by decide⟩
